import Mathlib

/-!
Verification development for the DLRM example trainer
(`examples/dlrm/dlrm_main.py` and `examples/dlrm/data/dlrm_dataloader.py`).

Python iterators over batches are embedded as Lean lists; fully draining a
combined iterator corresponds to computing the whole combined list and the
post-run state of each underlying iterator is the list of items it has not
yet yielded.  Fallible Python code is embedded with `Except`.
-/

set_option autoImplicit false

namespace DlrmMain

/-- Exceptions that the modelled code can raise.  `valueError` models Python's
`ValueError` (raised by `itertools.islice` on a negative stop and by
`get_dataloader` on an unrecognized stage); `configurationError` models the
spec's `ConfigurationError` taxonomy for missing file kinds. -/
inductive PyError where
  | valueError : PyError
  | configurationError : PyError
deriving DecidableEq, Repr

/-- `TRAIN_PIPELINE_STAGES = 3`: number of stages in `TrainPipelineSparseDist`
(`dlrm_main.py`, line 51). -/
def TRAIN_PIPELINE_STAGES : Nat := 3

/-- Embedding of `itertools.islice(iterator, stop)` (fully drained): a negative
`stop` raises `ValueError` at construction time, otherwise the first
`stop` items are yielded. -/
def islice {α : Type} (xs : List α) (stop : Int) : Except PyError (List α) :=
  if stop < 0 then .error .valueError else .ok (xs.take stop.toNat)

/-- The command-line options of `dlrm_main.py` that the orchestration core
reads (`parse_args`). -/
structure Args where
  epochs : Nat
  limit_train_batches : Option Int
  limit_val_batches : Option Int
  limit_test_batches : Option Int
  in_memory_binary_criteo_path : Option String

/-- The `limit_batches` value computed by `_train` (`dlrm_main.py`, lines
257-262): the configured train limit, reduced by `TRAIN_PIPELINE_STAGES - 1`
when `epoch > 0`. -/
def train_limit_batches (l : Option Int) (epoch : Nat) : Option Int :=
  match l with
  | none => none
  | some v => some (if 0 < epoch then v - ((TRAIN_PIPELINE_STAGES : Int) - 1) else v)

/-- The `limit_batches` value computed by `_evaluate` (`dlrm_main.py`, lines
195-199): the configured val/test limit, always reduced by
`TRAIN_PIPELINE_STAGES - 1` when present. -/
def eval_limit_batches (l : Option Int) : Option Int :=
  match l with
  | none => none
  | some v => some (v - ((TRAIN_PIPELINE_STAGES : Int) - 1))

/-- Embedding of `_train` (`dlrm_main.py`, lines 231-281), restricted to its
dataflow: the result is `(combined, iterator_rest, next_iterator_rest)` where
`combined` is the full content of `combined_iterator`
(`chain(iterator-or-islice(iterator, limit_batches),
islice(next_iterator, TRAIN_PIPELINE_STAGES - 1))`, lines 269-274) and the
rests are the items each source iterator has not yielded after the
loop drains `combined_iterator`. -/
def _train {α : Type} (args : Args) (iterator next_iterator : List α)
    (epoch : Nat) : Except PyError (List α × List α × List α) :=
  match train_limit_batches args.limit_train_batches epoch with
  | none =>
      .ok (iterator ++ next_iterator.take (TRAIN_PIPELINE_STAGES - 1), [],
        next_iterator.drop (TRAIN_PIPELINE_STAGES - 1))
  | some limit_batches =>
      match islice iterator limit_batches with
      | .error e => .error e
      | .ok part1 =>
          .ok (part1 ++ next_iterator.take (TRAIN_PIPELINE_STAGES - 1),
            iterator.drop limit_batches.toNat,
            next_iterator.drop (TRAIN_PIPELINE_STAGES - 1))

/-- Embedding of `_evaluate` (`dlrm_main.py`, lines 166-228), restricted to its
dataflow exactly as in `_train`; `stage` selects which configured limit is
read (line 195-197). -/
def _evaluate {α : Type} (args : Args) (iterator next_iterator : List α)
    (stage : String) : Except PyError (List α × List α × List α) :=
  match eval_limit_batches
      (if stage = "val" then args.limit_val_batches else args.limit_test_batches) with
  | none =>
      .ok (iterator ++ next_iterator.take (TRAIN_PIPELINE_STAGES - 1), [],
        next_iterator.drop (TRAIN_PIPELINE_STAGES - 1))
  | some limit_batches =>
      match islice iterator limit_batches with
      | .error e => .error e
      | .ok part1 =>
          .ok (part1 ++ next_iterator.take (TRAIN_PIPELINE_STAGES - 1),
            iterator.drop limit_batches.toNat,
            next_iterator.drop (TRAIN_PIPELINE_STAGES - 1))

/-- Embedding of the `for epoch in range(args.epochs)` loop of `train_val_test`
(`dlrm_main.py`, lines 310-317), as structural recursion on the number of
remaining epochs `r` with current epoch index `i`.  `train_dl` and `val_dl`
are the dataloaders (`iter(...)` yields a fresh copy of their item list);
`train_it` and `test_it` are the current states of `train_iterator` and
`test_iterator`.  The result is the list of `(phase, combined sequence)`
pairs fed to the engine together with the final state of `test_iterator`. -/
def tvtLoop {α : Type} (args : Args) (train_dl val_dl : List α) :
    Nat → Nat → List α → List α →
    Except PyError (List (String × List α) × List α)
  | 0, _, _, test_it => .ok ([], test_it)
  | r + 1, i, train_it, test_it =>
      match _train args train_it val_dl i with
      | .error e => .error e
      | .ok (trainComb, _, val_it2) =>
          if i = args.epochs - 1 then
            match _evaluate args val_it2 test_it "val" with
            | .error e => .error e
            | .ok (valComb, _, test_it2) =>
                match tvtLoop args train_dl val_dl r (i + 1) train_dl test_it2 with
                | .error e => .error e
                | .ok (rest, test_fin) =>
                    .ok (("train", trainComb) :: ("val", valComb) :: rest, test_fin)
          else
            match _evaluate args val_it2 train_dl "val" with
            | .error e => .error e
            | .ok (valComb, _, train_it2) =>
                match tvtLoop args train_dl val_dl r (i + 1) train_it2 test_it with
                | .error e => .error e
                | .ok (rest, test_fin) =>
                    .ok (("train", trainComb) :: ("val", valComb) :: rest, test_fin)

/-- Embedding of `train_val_test` (`dlrm_main.py`, lines 284-319): the epoch
loop followed by the final `_evaluate(args, train_pipeline, test_iterator,
iter(test_dataloader), "test")`.  Returns the trace of `(phase, combined
sequence)` pairs fed to the engine, in order. -/
def train_val_test {α : Type} (args : Args) (train_dl val_dl test_dl : List α) :
    Except PyError (List (String × List α)) :=
  match tvtLoop args train_dl val_dl args.epochs 0 train_dl test_dl with
  | .error e => .error e
  | .ok (trace, test_it) =>
      match _evaluate args test_it test_dl "test" with
      | .error e => .error e
      | .ok (testComb, _, _) => .ok (trace ++ [("test", testComb)])

/-- Modelled from the spec: the Lookahead Compositor's combined sequence is the
current phase's sequence, truncated to the (effective) limit when one is
configured, followed by the first `TRAIN_PIPELINE_STAGES - 1` items of the
next phase's sequence. -/
def specCombined {α : Type} (current : List α) (limit : Option Nat)
    (next : List α) : List α :=
  (match limit with
   | none => current
   | some l => current.take l) ++ next.take (TRAIN_PIPELINE_STAGES - 1)

/-- An `Args` value with all per-phase limits unset, `e` epochs, and no
in-memory dataset path. -/
def noLimitArgs (e : Nat) : Args := ⟨e, none, none, none, none⟩

/-- The expected engine-feed trace of the epoch loop when no limits are
configured: with `r + 1` epochs remaining and `train_it` the current state of
the train iterator, each epoch feeds the rest of the train iterator plus two
lookahead validation items, then the rest of the validation iterator plus two
lookahead items from the restarted train iterator — or from the test iterator
`ts_it` on the final remaining epoch. -/
def nolimTrace {α : Type} (tr vl ts_it : List α) :
    Nat → List α → List (String × List α)
  | 0, _ => []
  | r + 1, train_it =>
      ("train", train_it ++ vl.take (TRAIN_PIPELINE_STAGES - 1)) ::
      ("val", vl.drop (TRAIN_PIPELINE_STAGES - 1) ++
        (if r = 0 then ts_it.take (TRAIN_PIPELINE_STAGES - 1)
         else tr.take (TRAIN_PIPELINE_STAGES - 1))) ::
      nolimTrace tr vl ts_it r (tr.drop (TRAIN_PIPELINE_STAGES - 1))

/-! ### Embedding of `data/dlrm_dataloader.py` -/

/-- `listStartsWith s pat` is true when `pat` is an initial segment of `s`. -/
def listStartsWith {α : Type} [DecidableEq α] : List α → List α → Bool
  | _, [] => true
  | [], _ :: _ => false
  | a :: as, b :: bs => decide (a = b) && listStartsWith as bs

/-- `listContainsSub pat s` is true when `pat` occurs as a contiguous
subsequence of `s` (the semantics of Python's `in` on sequences). -/
def listContainsSub {α : Type} [DecidableEq α] (pat : List α) : List α → Bool
  | [] => pat.isEmpty
  | a :: rest => listStartsWith (a :: rest) pat || listContainsSub pat rest

/-- Embedding of Python's `pat in s` on strings. -/
def pyIn (pat s : String) : Bool := listContainsSub pat.data s.data

/-- ASCII lowercasing of one character, the fragment of Python's `str.lower`
relevant to the stage names handled here. -/
def asciiLowerChar (c : Char) : Char :=
  if 65 ≤ c.toNat ∧ c.toNat ≤ 90 then Char.ofNat (c.toNat + 32) else c

/-- Embedding of Python's `str.lower` (ASCII fragment). -/
def pyLower (s : String) : String := String.mk (s.data.map asciiLowerChar)

/-- `STAGES = ["train", "val", "test"]` (`dlrm_dataloader.py`, line 23). -/
def STAGES : List String := ["train", "val", "test"]

/-- Embedding of `is_final_day` (`dlrm_dataloader.py`, lines 54-55):
`f"day_{DAYS - 1}" in s`.  `DAYS` is the day-count constant imported from
`torchrec.datasets.criteo`, kept as a parameter here. -/
def is_final_day (DAYS : Nat) (s : String) : Bool :=
  pyIn ("day_" ++ Nat.repr (DAYS - 1)) s

/-- Embedding of the file selection of `_get_in_memory_dataloader`
(`dlrm_dataloader.py`, lines 57-65): train keeps the files not from the final
day, every other stage keeps exactly the final-day files. -/
def partitionFiles (DAYS : Nat) (stage : String) (files : List String) :
    List String :=
  if stage = "train" then files.filter (fun s => ! is_final_day DAYS s)
  else files.filter (fun s => is_final_day DAYS s)

/-- Embedding of the rank selection of `_get_in_memory_dataloader`
(`dlrm_dataloader.py`, lines 60, 66-70). -/
def effective_rank (stage : String) (rank world_size : Nat) : Nat :=
  if stage = "train" then rank
  else if stage = "val" then rank else rank + world_size

/-- Embedding of the world-size selection of `_get_in_memory_dataloader`
(`dlrm_dataloader.py`, lines 61, 71). -/
def effective_world_size (stage : String) (world_size : Nat) : Nat :=
  if stage = "train" then world_size else world_size * 2

/-- Embedding of `npys_list` (`dlrm_dataloader.py`, lines 73-75). -/
def npys_list (DAYS : Nat) : List String :=
  if DAYS = 1 then ["_0_reordered_int", "_0_reordered_cat", "_0_reordered_y"]
  else ["_reordered_int", "_reordered_cat", "_reordered_y"]

/-- Model of `os.path.join(dir, name)` for a directory without a trailing
separator. -/
def pyJoin (dir name : String) : String := dir ++ "/" ++ name

/-- Insert a string into an already-sorted list, keeping it sorted. -/
def insertSorted (x : String) : List String → List String
  | [] => [x]
  | y :: ys => if x ≤ y then x :: y :: ys else y :: insertSorted x ys

/-- Model of Python's `sorted` on lists of strings (insertion sort). -/
def sortStrings (l : List String) : List String := l.foldr insertSorted []

/-- Embedding of the `stage_files` construction (`dlrm_dataloader.py`, lines
76-87): for each kind in `npys_list`, the matching files, joined to the
dataset path and sorted. -/
def stage_files (DAYS : Nat) (path : String) (files : List String) :
    List (List String) :=
  (npys_list DAYS).map (fun kind =>
    sortStrings ((files.filter (fun s => pyIn kind s)).map (fun x => pyJoin path x)))

/-- Modelled from the spec: `InMemoryBinaryCriteoIterDataPipe` (defined in
`torchrec/datasets/criteo.py`, which is not under `src/`) "fails with a
`ConfigurationError` rather than silently producing an empty shard" when a
required file-kind pattern matches no files. -/
def dataPipeKindCheck (sf : List (List String)) : Except PyError Unit :=
  if sf.any (fun l => l.isEmpty) then .error .configurationError else .ok ()

/-- The two dataloader shapes `get_dataloader` can build: a random-dataset
loader, or an in-memory Criteo loader recording the `stage_files`, `rank` and
`world_size` passed to `InMemoryBinaryCriteoIterDataPipe`. -/
inductive Dataloader where
  | randomLoader : Dataloader
  | inMemoryLoader (sf : List (List String)) (rank world_size : Nat) : Dataloader
deriving DecidableEq, Repr

/-- Embedding of `_get_in_memory_dataloader` (`dlrm_dataloader.py`, lines
47-106): partition the directory listing `files` for `stage`, compute the
effective rank and world size, build `stage_files`, and hand them to the data
pipe (whose missing-kind check is `dataPipeKindCheck`). -/
def _get_in_memory_dataloader (DAYS : Nat) (path : String)
    (files : List String) (rank world_size : Nat) (stage : String) :
    Except PyError Dataloader :=
  let fs := partitionFiles DAYS stage files
  let r := effective_rank stage rank world_size
  let w := effective_world_size stage world_size
  let sf := stage_files DAYS path fs
  match dataPipeKindCheck sf with
  | .error e => .error e
  | .ok _ => .ok (.inMemoryLoader sf r w)

/-- The body of `get_dataloader` after `stage = stage.lower()`
(`dlrm_dataloader.py`, lines 126-134): reject stages outside `STAGES` with a
`ValueError`, otherwise dispatch on `args.in_memory_binary_criteo_path`. -/
def get_dataloader_lowered (args : Args) (DAYS : Nat) (files : List String)
    (rank world_size : Nat) (stage : String) : Except PyError Dataloader :=
  if stage ∈ STAGES then
    match args.in_memory_binary_criteo_path with
    | none => .ok .randomLoader
    | some p => _get_in_memory_dataloader DAYS p files rank world_size stage
  else .error .valueError

/-- Embedding of `get_dataloader` (`dlrm_dataloader.py`, lines 109-134):
lowercase the stage, then validate and dispatch.  The directory listing
`files`, the process-group `rank`/`world_size` and the `DAYS` constant are
explicit parameters. -/
def get_dataloader (args : Args) (DAYS : Nat) (files : List String)
    (rank world_size : Nat) (stage : String) : Except PyError Dataloader :=
  get_dataloader_lowered args DAYS files rank world_size (pyLower stage)

/-! ### Theorems -/

/-- Claim C1: for every phase transition, the combined sequence fed to the
execution engine equals the current phase's iterator (truncated to the
effective limit when one is configured) followed by the first
`TRAIN_PIPELINE_STAGES - 1` items drawn from the next phase's iterator; this
holds both for `_train` and for `_evaluate`. -/
theorem c1_combined_sequence (α : Type) :
    (∀ (args : Args) (it nx : List α) (e : Nat) (comb r1 r2 : List α),
      _train args it nx e = .ok (comb, r1, r2) →
      comb = specCombined it
        (Option.map Int.toNat (train_limit_batches args.limit_train_batches e)) nx) ∧
    (∀ (args : Args) (it nx : List α) (stage : String) (comb r1 r2 : List α),
      _evaluate args it nx stage = .ok (comb, r1, r2) →
      comb = specCombined it
        (Option.map Int.toNat (eval_limit_batches
          (if stage = "val" then args.limit_val_batches
           else args.limit_test_batches))) nx) := by
  constructor
  · intro args it nx e comb r1 r2 hok
    unfold _train at hok
    cases h : train_limit_batches args.limit_train_batches e with
    | none =>
        rw [h] at hok
        simp only [Except.ok.injEq, Prod.mk.injEq] at hok
        simp [specCombined, ← hok.1]
    | some lb =>
        rw [h] at hok
        unfold islice at hok
        by_cases hneg : lb < 0
        · simp [hneg] at hok
        · simp only [hneg, if_neg, if_false, ite_false] at hok
          simp only [Except.ok.injEq, Prod.mk.injEq] at hok
          simp [specCombined, ← hok.1]
  · intro args it nx stage comb r1 r2 hok
    unfold _evaluate at hok
    cases h : eval_limit_batches
        (if stage = "val" then args.limit_val_batches
         else args.limit_test_batches) with
    | none =>
        rw [h] at hok
        simp only [Except.ok.injEq, Prod.mk.injEq] at hok
        simp [specCombined, ← hok.1]
    | some lb =>
        rw [h] at hok
        unfold islice at hok
        by_cases hneg : lb < 0
        · simp [hneg] at hok
        · simp only [hneg, if_neg, if_false, ite_false] at hok
          simp only [Except.ok.injEq, Prod.mk.injEq] at hok
          simp [specCombined, ← hok.1]

/-- Witness for C1 at concrete inputs (train without a limit; val with limit
2, so the effective limit is 0). -/
theorem c1_combined_sequence_witness :
    ([0, 1, 2, 3] : List Nat)
        = specCombined [0, 1]
            (Option.map Int.toNat (train_limit_batches none 0)) [2, 3, 4] ∧
    ([5, 6] : List Nat)
        = specCombined [0, 1, 2]
            (Option.map Int.toNat (eval_limit_batches (some 2))) [5, 6] :=
  ⟨(c1_combined_sequence Nat).1 (noLimitArgs 1) [0, 1] [2, 3, 4] 0
      [0, 1, 2, 3] [] [4] (by rfl),
   (c1_combined_sequence Nat).2 ⟨1, none, some 2, none, none⟩ [0, 1, 2] [5, 6]
      "val" [5, 6] [0, 1, 2] [] (by rfl)⟩

/-- Claim C2: with a configured limit `L`, the number of new items requested
from the current phase's iterator is `L` for the first train invocation
(epoch 0, the first phase invocation of the whole run) and
`L - (TRAIN_PIPELINE_STAGES - 1)` for every later train invocation and every
val/test invocation; concretely, for limit 5 on the second epoch's train
invocation, 3 train items are followed by 2 lookahead validation items, for a
combined sequence of length 5. -/
theorem c2_limit_reduction :
    (∀ L : Int, train_limit_batches (some L) 0 = some L) ∧
    (∀ (L : Int) (e : Nat), 0 < e →
      train_limit_batches (some L) e
        = some (L - ((TRAIN_PIPELINE_STAGES : Int) - 1))) ∧
    (∀ L : Int, eval_limit_batches (some L)
        = some (L - ((TRAIN_PIPELINE_STAGES : Int) - 1))) ∧
    _train ⟨2, some 5, none, none, none⟩ ([0, 1, 2, 3] : List Nat) [10, 11, 12] 1
      = .ok ([0, 1, 2, 10, 11], [3], [12]) ∧
    ([0, 1, 2, 10, 11] : List Nat).length = 5 := by
  refine ⟨?_, ?_, ?_, by rfl, by rfl⟩
  · intro L; simp [train_limit_batches]
  · intro L e he; simp [train_limit_batches, he]
  · intro L; simp [eval_limit_batches]

/-- Witness for C2: limit 5 on a non-first train invocation requests 3 items. -/
theorem c2_limit_reduction_witness :
    train_limit_batches (some 5) 1 = some (5 - ((TRAIN_PIPELINE_STAGES : Int) - 1)) :=
  c2_limit_reduction.2.1 5 1 (by decide)

/-- Claim C3 is false as stated: with configured train limit 1 on a non-first
train invocation, `L - (TRAIN_PIPELINE_STAGES - 1) = -1 < 0` and the code
raises `ValueError` from `itertools.islice` instead of requesting
`max(L - (P - 1), 0) = 0` items. -/
theorem c3_nonpositive_limit_cex :
    _train ⟨2, some 1, none, none, none⟩ ([0, 1, 2] : List Nat) [5, 6] 1
      = .error .valueError := by rfl

/-- Claim C3 amended: if the configured limit minus `TRAIN_PIPELINE_STAGES - 1`
is exactly zero, the current phase contributes zero new items to the combined
sequence and no error is raised; if it is negative, the code raises a
`ValueError` (from `islice`) instead of treating it as zero.  Holds for
`_train` on a non-first invocation and for `_evaluate`. -/
theorem c3_nonpositive_limit_amended (α : Type) (args : Args) (it nx : List α)
    (e : Nat) (L : Int) (he : 0 < e) :
    (args.limit_train_batches = some L →
      L - ((TRAIN_PIPELINE_STAGES : Int) - 1) = 0 →
      _train args it nx e = .ok (nx.take (TRAIN_PIPELINE_STAGES - 1), it,
        nx.drop (TRAIN_PIPELINE_STAGES - 1))) ∧
    (args.limit_train_batches = some L →
      L - ((TRAIN_PIPELINE_STAGES : Int) - 1) < 0 →
      _train args it nx e = .error .valueError) ∧
    (args.limit_val_batches = some L →
      L - ((TRAIN_PIPELINE_STAGES : Int) - 1) = 0 →
      _evaluate args it nx "val" = .ok (nx.take (TRAIN_PIPELINE_STAGES - 1), it,
        nx.drop (TRAIN_PIPELINE_STAGES - 1))) ∧
    (args.limit_val_batches = some L →
      L - ((TRAIN_PIPELINE_STAGES : Int) - 1) < 0 →
      _evaluate args it nx "val" = .error .valueError) := by
  refine ⟨?_, ?_, ?_, ?_⟩
  · intro hL h0
    simp [_train, train_limit_batches, hL, he, h0, islice]
  · intro hL hneg
    simp [_train, train_limit_batches, hL, he, islice, hneg]
  · intro hL h0
    simp [_evaluate, eval_limit_batches, hL, h0, islice]
  · intro hL hneg
    simp [_evaluate, eval_limit_batches, hL, islice, hneg]

/-- Witness for the amended C3: limit 2 (so effective limit 0) yields only the
two buffered lookahead items without error; limit 1 raises `ValueError`. -/
theorem c3_nonpositive_limit_amended_witness :
    _train ⟨2, some 2, none, none, none⟩ ([0, 1] : List Nat) [5, 6, 7] 1
      = .ok ([5, 6], [0, 1], [7]) ∧
    _train ⟨2, some 1, none, none, none⟩ ([0, 1] : List Nat) [5, 6, 7] 1
      = .error .valueError :=
  ⟨(c3_nonpositive_limit_amended Nat ⟨2, some 2, none, none, none⟩ [0, 1]
      [5, 6, 7] 1 2 (by decide)).1 (by rfl) (by decide),
   (c3_nonpositive_limit_amended Nat ⟨2, some 1, none, none, none⟩ [0, 1]
      [5, 6, 7] 1 1 (by decide)).2.1 (by rfl) (by decide)⟩

/-- Gluing a `take` and the matching `drop` inside an append chain. -/
theorem take_drop_glue (α : Type) (l X : List α) (n : Nat) :
    l.take n ++ (l.drop n ++ X) = l ++ X := by
  rw [← List.append_assoc, List.take_append_drop]

/-- Claim C4: lookahead items are never re-consumed.  Over a two-epoch
no-limit run, the val phase's own run continues the very val iterator whose
first `TRAIN_PIPELINE_STAGES - 1` items were fed as lookahead by `_train`
(starting at item index 2), and the second epoch's train run continues the
restarted train iterator already tapped by the previous val run; flattening
the whole engine feed reproduces each iterator pass exactly once, with no
item repeated or skipped. -/
theorem c4_no_reconsumption (α : Type) (tr vl ts : List α) :
    train_val_test (noLimitArgs 2) tr vl ts
      = .ok [("train", tr ++ vl.take 2), ("val", vl.drop 2 ++ tr.take 2),
             ("train", tr.drop 2 ++ vl.take 2), ("val", vl.drop 2 ++ ts.take 2),
             ("test", ts.drop 2 ++ ts.take 2)] ∧
    (tr ++ vl.take 2) ++ (vl.drop 2 ++ tr.take 2) ++ (tr.drop 2 ++ vl.take 2) ++
        (vl.drop 2 ++ ts.take 2) ++ (ts.drop 2 ++ ts.take 2)
      = tr ++ vl ++ tr ++ vl ++ ts ++ ts.take 2 := by
  constructor
  · rfl
  · simp [List.append_assoc, take_drop_glue]

/-- The epoch loop of `train_val_test`, with no configured limits, produces
exactly the `nolimTrace` schedule and consumes two test items (the final
epoch's val lookahead). -/
theorem tvtLoop_noLimit (α : Type) (tr vl : List α) (e : Nat) :
    ∀ (r i : Nat) (train_it test_it : List α), 1 ≤ r → i + r = e →
      tvtLoop (noLimitArgs e) tr vl r i train_it test_it
        = .ok (nolimTrace tr vl test_it r train_it,
            test_it.drop (TRAIN_PIPELINE_STAGES - 1)) := by
  intro r
  induction r with
  | zero =>
      intro i train_it test_it hr
      exact absurd hr (by omega)
  | succ r ih =>
      intro i train_it test_it hr hie
      by_cases hr0 : r = 0
      · subst hr0
        have hi : i = e - 1 := by omega
        simp [tvtLoop, _train, _evaluate, train_limit_batches,
          eval_limit_batches, noLimitArgs, nolimTrace, hi]
      · have hne : ¬ i = e - 1 := by omega
        simp only [tvtLoop, _train, _evaluate, train_limit_batches,
          eval_limit_batches,
          show (noLimitArgs e).limit_train_batches = none from rfl,
          show (noLimitArgs e).limit_val_batches = none from rfl,
          show (noLimitArgs e).epochs = e from rfl,
          hne, if_false, ite_false, reduceIte]
        rw [ih (i + 1) (tr.drop (TRAIN_PIPELINE_STAGES - 1)) test_it
          (by omega) (by omega)]
        simp [nolimTrace, hr0]

/-- `nolimTrace` contains no test-phase entry. -/
theorem nolimTrace_test_count (α : Type) (tr vl ts : List α) :
    ∀ (r : Nat) (it : List α),
      (nolimTrace tr vl ts r it).countP (fun p => decide (p.1 = "test")) = 0 := by
  intro r
  induction r with
  | zero => intro it; simp [nolimTrace]
  | succ r ih => intro it; simp [nolimTrace, List.countP_cons, ih]

/-- Claim C5: with no configured limits, for every epoch count `e ≥ 1` the
orchestrator's engine feed is: per epoch, train with lookahead into a fresh
val iterator, then val (continuing that iterator) with lookahead into the
restarted train iterator — except on the final epoch, where val's lookahead
target is the test iterator — and after all epochs a single test run that
continues the test iterator and drains into a freshly created test iterator;
the trace contains exactly one test entry. -/
theorem c5_orchestrator_schedule (α : Type) (tr vl ts : List α) (e : Nat)
    (he : 1 ≤ e) :
    train_val_test (noLimitArgs e) tr vl ts
      = .ok (nolimTrace tr vl ts e tr ++
          [("test", ts.drop (TRAIN_PIPELINE_STAGES - 1) ++
            ts.take (TRAIN_PIPELINE_STAGES - 1))]) ∧
    (nolimTrace tr vl ts e tr ++
        [("test", ts.drop (TRAIN_PIPELINE_STAGES - 1) ++
          ts.take (TRAIN_PIPELINE_STAGES - 1))]).countP
      (fun p => decide (p.1 = "test")) = 1 := by
  constructor
  · unfold train_val_test
    rw [show (noLimitArgs e).epochs = e from rfl,
      tvtLoop_noLimit α tr vl e e 0 tr ts he (by omega)]
    simp [_evaluate, eval_limit_batches, noLimitArgs]
  · rw [List.countP_append]
    simp [nolimTrace_test_count]

/-- Witness for C5 at a one-epoch run on concrete lists (the val dataloader
has only two items, so the val phase itself consists purely of the lookahead
feed). -/
theorem c5_orchestrator_schedule_witness :
    train_val_test (noLimitArgs 1) ([0, 1, 2] : List Nat) [3, 4] [5, 6, 7]
      = .ok [("train", [0, 1, 2, 3, 4]), ("val", [5, 6]), ("test", [7, 5, 6])] := by
  rw [(c5_orchestrator_schedule Nat [0, 1, 2] [3, 4] [5, 6, 7] 1 (by decide)).1]
  rfl

/-- Claim C6: the train partitioner selects exactly the files whose names do
not contain the final-day marker, while the val and test partitioners select
exactly the files whose names do contain it; with files `day_0_a`, `day_0_b`,
`day_1_a`, `day_1_b` and `DAYS = 2`, train receives the two `day_0` files and
val/test both receive the two `day_1` files. -/
theorem c6_file_partition :
    (∀ (DAYS : Nat) (files : List String) (s : String),
      (s ∈ partitionFiles DAYS "train" files ↔
        s ∈ files ∧ is_final_day DAYS s = false) ∧
      (s ∈ partitionFiles DAYS "val" files ↔
        s ∈ files ∧ is_final_day DAYS s = true) ∧
      (s ∈ partitionFiles DAYS "test" files ↔
        s ∈ files ∧ is_final_day DAYS s = true)) ∧
    partitionFiles 2 "train" ["day_0_a", "day_0_b", "day_1_a", "day_1_b"]
      = ["day_0_a", "day_0_b"] ∧
    partitionFiles 2 "val" ["day_0_a", "day_0_b", "day_1_a", "day_1_b"]
      = ["day_1_a", "day_1_b"] ∧
    partitionFiles 2 "test" ["day_0_a", "day_0_b", "day_1_a", "day_1_b"]
      = ["day_1_a", "day_1_b"] := by
  refine ⟨?_, by decide, by decide, by decide⟩
  intro DAYS files s
  have hv : ("val" : String) ≠ "train" := by decide
  have ht : ("test" : String) ≠ "train" := by decide
  refine ⟨?_, ?_, ?_⟩ <;>
    simp [partitionFiles, List.mem_filter, hv, ht]

/-- Claim C7: the val phase passes the global rank through with a doubled
world size, the test phase offsets the rank by the global world size with the
same doubled world size, and the train phase passes rank and world size
through unchanged. -/
theorem c7_effective_rank_world (rank world_size : Nat) :
    effective_rank "val" rank world_size = rank ∧
    effective_rank "test" rank world_size = rank + world_size ∧
    effective_world_size "val" world_size = world_size * 2 ∧
    effective_world_size "test" world_size = world_size * 2 ∧
    effective_rank "train" rank world_size = rank ∧
    effective_world_size "train" world_size = world_size := by
  have hv : ("val" : String) ≠ "train" := by decide
  have ht : ("test" : String) ≠ "train" := by decide
  have htv : ("test" : String) ≠ "val" := by decide
  refine ⟨?_, ?_, ?_, ?_, ?_, ?_⟩ <;>
    simp [effective_rank, effective_world_size, hv, ht, htv]

/-- Claim C8: when an expected file kind is absent — no file of the
partitioned set matches one of the required `npys_list` patterns — the
dataloader construction fails with a `ConfigurationError` instead of
producing an empty shard (the failing check lives in
`InMemoryBinaryCriteoIterDataPipe` and is modelled from the spec as
`dataPipeKindCheck`). -/
theorem c8_missing_kind_error (DAYS : Nat) (path : String) (files : List String)
    (rank world_size : Nat) (stage kind : String)
    (hkind : kind ∈ npys_list DAYS)
    (hnone : ∀ f ∈ partitionFiles DAYS stage files, pyIn kind f = false) :
    _get_in_memory_dataloader DAYS path files rank world_size stage
      = .error .configurationError := by
  have hfilter : (partitionFiles DAYS stage files).filter
      (fun s => pyIn kind s) = [] := by
    rw [List.filter_eq_nil_iff]
    intro a ha
    simp [hnone a ha]
  have hempty : sortStrings (((partitionFiles DAYS stage files).filter
      (fun s => pyIn kind s)).map (fun x => pyJoin path x)) = [] := by
    rw [hfilter]; rfl
  have hmem : ([] : List String)
      ∈ stage_files DAYS path (partitionFiles DAYS stage files) := by
    unfold stage_files
    exact List.mem_map.mpr ⟨kind, hkind, hempty⟩
  have hany : (stage_files DAYS path (partitionFiles DAYS stage files)).any
      (fun l => l.isEmpty) = true :=
    List.any_eq_true.mpr ⟨[], hmem, rfl⟩
  unfold _get_in_memory_dataloader dataPipeKindCheck
  simp [hany]

/-- Witness for C8: a directory with no `_reordered_y` file for the train
partition triggers the `ConfigurationError`. -/
theorem c8_missing_kind_error_witness :
    _get_in_memory_dataloader 2 "/d"
      ["day_0_reordered_int", "day_0_reordered_cat"] 0 1 "train"
      = .error .configurationError :=
  c8_missing_kind_error 2 "/d" ["day_0_reordered_int", "day_0_reordered_cat"]
    0 1 "train" "_reordered_y" (by decide) (by decide)

/-- Claim C9: `get_dataloader` raises immediately (before any dataloader is
constructed) when the lowercased stage is not one of `STAGES`, and for
recognized stage names the stage check never raises — with the random
dataset path the call succeeds outright. -/
theorem c9_stage_validation :
    (∀ (args : Args) (DAYS : Nat) (files : List String)
      (rank world_size : Nat) (stage : String), pyLower stage ∉ STAGES →
        get_dataloader args DAYS files rank world_size stage
          = .error .valueError) ∧
    (∀ (args : Args) (DAYS : Nat) (files : List String)
      (rank world_size : Nat) (stage : String), stage ∈ STAGES →
        args.in_memory_binary_criteo_path = none →
        get_dataloader args DAYS files rank world_size stage
          = .ok .randomLoader) := by
  constructor
  · intro args DAYS files rank ws stage h
    simp [get_dataloader, get_dataloader_lowered, h]
  · intro args DAYS files rank ws stage hst hpath
    have hcases : stage = "train" ∨ stage = "val" ∨ stage = "test" := by
      simpa [STAGES] using hst
    rcases hcases with rfl | rfl | rfl <;>
      simp [get_dataloader, get_dataloader_lowered, hpath, STAGES,
        show pyLower "train" = "train" from by decide,
        show pyLower "val" = "val" from by decide,
        show pyLower "test" = "test" from by decide]

/-- Witness for C9: the unrecognized stage `"banana"` is rejected with a
`ValueError`; the recognized stage `"train"` is accepted. -/
theorem c9_stage_validation_witness :
    get_dataloader (noLimitArgs 1) 2 [] 0 1 "banana" = .error .valueError ∧
    get_dataloader (noLimitArgs 1) 2 [] 0 1 "train" = .ok .randomLoader :=
  ⟨c9_stage_validation.1 (noLimitArgs 1) 2 [] 0 1 "banana" (by decide),
   c9_stage_validation.2 (noLimitArgs 1) 2 [] 0 1 "train" (by decide) (by rfl)⟩

/-- Claim C10: `get_dataloader` lowercases the supplied stage before
validating it, so `"TRAIN"` and `"Val"` are dispatched identically to their
lowercase forms, and `"TRAIN"` is accepted rather than rejected. -/
theorem c10_stage_lowercased :
    (∀ (args : Args) (DAYS : Nat) (files : List String)
      (rank world_size : Nat),
      get_dataloader args DAYS files rank world_size "TRAIN"
        = get_dataloader args DAYS files rank world_size "train" ∧
      get_dataloader args DAYS files rank world_size "Val"
        = get_dataloader args DAYS files rank world_size "val") ∧
    pyLower "TRAIN" = "train" ∧ pyLower "Val" = "val" ∧
    (∀ (args : Args) (DAYS : Nat) (files : List String)
      (rank world_size : Nat),
      args.in_memory_binary_criteo_path = none →
      get_dataloader args DAYS files rank world_size "TRAIN"
        = .ok .randomLoader) := by
  refine ⟨?_, by decide, by decide, ?_⟩
  · intro args DAYS files rank ws
    constructor <;>
      simp [get_dataloader,
        show pyLower "TRAIN" = "train" from by decide,
        show pyLower "train" = "train" from by decide,
        show pyLower "Val" = "val" from by decide,
        show pyLower "val" = "val" from by decide]
  · intro args DAYS files rank ws hpath
    simp [get_dataloader, get_dataloader_lowered, hpath, STAGES,
      show pyLower "TRAIN" = "train" from by decide]

/-- Witness for C10: with the random dataset path, `"TRAIN"` is accepted and
yields the random dataloader. -/
theorem c10_stage_lowercased_witness :
    get_dataloader (noLimitArgs 1) 2 [] 0 1 "TRAIN" = .ok .randomLoader :=
  c10_stage_lowercased.2.2.2 (noLimitArgs 1) 2 [] 0 1 (by rfl)

end DlrmMain
